import Mathlib

/-!
Verification of the DuckLens transformation core (stage 2 of the ETL
pipeline, `02_transform.py`), together with the unit-price computation of
the cleaning stage (`01_cleaning.py`) that feeds it.

Rows are modelled as records over exact rationals (the pandas floats),
a dataset as a `List Row`, and each enrichment pass as a map over the
list whose per-row fields are computed from the whole dataset, which is
exactly what the pandas groupby / left-merge-on-unique-key / fillna
combinations do.
-/

attribute [local semireducible] Rat.mul Rat.inv Rat.add Rat.sub

namespace DuckLens

/-- A cleaned transaction row, as produced by the cleaning stage:
the columns of the transform stage's input contract.  Sale dates are
abstracted as natural numbers. -/
structure Row where
  store_name : String
  item_code : String
  sub_department : String
  sect : String
  supplier : String
  date_of_sale : Nat
  quantity : Rat
  total_sales : Rat
  rrp : Rat
  unit_price : Rat
  data_quality_flag : String
deriving DecidableEq

/-- `unit_price` as computed by `clean_data` in `01_cleaning.py`:
`np.where(quantity > 0, total_sales / quantity, 0)`. -/
def clean_unit_price (quantity total_sales : Rat) : Rat :=
  if 0 < quantity then total_sales / quantity else 0

/-- `PROMO_MIN_DISCOUNT_PCT = 0.10` from `02_transform.py`. -/
def PROMO_MIN_DISCOUNT_PCT : Rat := 1 / 10

/-- `PROMO_MIN_DAYS = 2` from `02_transform.py`. -/
def PROMO_MIN_DAYS : Nat := 2

/-- `discount_pct`: `np.where(rrp > 0, (rrp - unit_price) / rrp, 0)`. -/
def discount_pct (r : Row) : Rat :=
  if 0 < r.rrp then (r.rrp - r.unit_price) / r.rrp else 0

/-- `is_promo_candidate`: `discount_pct >= PROMO_MIN_DISCOUNT_PCT`. -/
def is_promo_candidate (r : Row) : Bool :=
  decide (PROMO_MIN_DISCOUNT_PCT ≤ discount_pct r)

/-- The promo-candidate rows of one item:
`df[df.is_promo_candidate]` restricted to one `item_code`. -/
def candidateRows (ds : List Row) (item : String) : List Row :=
  ds.filter (fun x => x.item_code == item && is_promo_candidate x)

/-- `promo_days_count`: per item, the number of distinct `date_of_sale`
values among its candidate rows
(`groupby('item_code')['date_of_sale'].nunique()`, left-merged with
`fillna(0)` for items with no candidate rows). -/
def promo_days_count (ds : List Row) (item : String) : Nat :=
  ((candidateRows ds item).map Row.date_of_sale).dedup.length

/-- `is_promo`: `is_promo_candidate & (promo_days_count >= PROMO_MIN_DAYS)`. -/
def is_promo (ds : List Row) (r : Row) : Bool :=
  is_promo_candidate r && decide (PROMO_MIN_DAYS ≤ promo_days_count ds r.item_code)

/-- Output row of pass 1 (`detect_promos`): the base row plus the columns
it adds (the temporary `is_promo_candidate` column is dropped by the code). -/
structure R1 where
  base : Row
  discount_pct : Rat
  promo_days_count : Nat
  is_promo : Bool
deriving DecidableEq

/-- The per-row enrichment of `detect_promos`. -/
def enrich1 (ds : List Row) (r : Row) : R1 :=
  ⟨r, discount_pct r, promo_days_count ds r.item_code, is_promo ds r⟩

/-- Pass 1, `detect_promos`. -/
def detect_promos (ds : List Row) : List R1 :=
  ds.map (enrich1 ds)

/-- The mean of a list of rationals, `sum / length`. -/
def listMean (l : List Rat) : Rat :=
  l.sum / (l.length : Rat)

/-- Quantities of the non-promo rows of one item
(`df[~df.is_promo]` grouped by `item_code`). -/
def nonPromoQuantities (l : List R1) (item : String) : List Rat :=
  (l.filter (fun x => x.base.item_code == item && !x.is_promo)).map (fun x => x.base.quantity)

/-- Quantities of the promo rows of one item
(`df[df.is_promo]` grouped by `item_code`). -/
def promoQuantities (l : List R1) (item : String) : List Rat :=
  (l.filter (fun x => x.base.item_code == item && x.is_promo)).map (fun x => x.base.quantity)

/-- `baseline_units`: mean quantity over the item's non-promo rows;
the left merge leaves NaN for an item with none, and
`fillna(df['quantity'])` replaces it with the row's own quantity. -/
def baseline_units (l : List R1) (x : R1) : Rat :=
  if nonPromoQuantities l x.base.item_code = [] then x.base.quantity
  else listMean (nonPromoQuantities l x.base.item_code)

/-- `promo_avg_units`: mean quantity over the item's promo rows,
`fillna(0)` when it has none. -/
def promo_avg_units (l : List R1) (item : String) : Rat :=
  if promoQuantities l item = [] then 0
  else listMean (promoQuantities l item)

/-- `promo_uplift_pct`:
`np.where((baseline_units > 0) & is_promo, (promo_avg_units - baseline_units) / baseline_units * 100, 0)`. -/
def promo_uplift_pct (l : List R1) (x : R1) : Rat :=
  if 0 < baseline_units l x ∧ x.is_promo = true then
    ((promo_avg_units l x.base.item_code - baseline_units l x) / baseline_units l x) * 100
  else 0

/-- Output row of pass 2 (`calculate_uplift`). -/
structure R2 where
  r1 : R1
  baseline_units : Rat
  promo_avg_units : Rat
  promo_uplift_pct : Rat
deriving DecidableEq

/-- The per-row enrichment of `calculate_uplift`. -/
def enrich2 (l : List R1) (x : R1) : R2 :=
  ⟨x, baseline_units l x, promo_avg_units l x.base.item_code, promo_uplift_pct l x⟩

/-- Pass 2, `calculate_uplift`. -/
def calculate_uplift (l : List R1) : List R2 :=
  l.map (enrich2 l)

/-- ASCII lower-casing of a character, as Python lower-cases the
supplier string. -/
def lowerChar (c : Char) : Char :=
  if 65 ≤ c.toNat ∧ c.toNat ≤ 90 then Char.ofNat (c.toNat + 32) else c

/-- Whether the first character list is an initial segment of the second. -/
def isPrefixOfCL : List Char → List Char → Bool
  | [], _ => true
  | _ :: _, [] => false
  | a :: as, b :: bs => a == b && isPrefixOfCL as bs

/-- Whether the first character list occurs contiguously in the second. -/
def isInfixOfCL (needle : List Char) : List Char → Bool
  | [] => isPrefixOfCL needle []
  | b :: bs => isPrefixOfCL needle (b :: bs) || isInfixOfCL needle bs

/-- `is_bidco`: `supplier.str.contains('Bidco', case=False)` —
case-insensitive substring match. -/
def is_bidco (r : Row) : Bool :=
  isInfixOfCL "bidco".data (r.supplier.data.map lowerChar)

/-- Two rows fall in the same price-comparison cohort when they agree on
`sub_department`, `section` and `store_name`. -/
def sameGroup (r x : Row) : Bool :=
  x.sub_department == r.sub_department && x.sect == r.sect && x.store_name == r.store_name

/-- The rows of `r`'s (sub-department, section, store) cohort within a
pass-2 list. -/
def groupRows (l : List R2) (r : Row) : List R2 :=
  l.filter (fun x => sameGroup r x.r1.base)

/-- `group_avg_price`: mean `unit_price` over the cohort
(`groupby(['sub_department','section','store_name'])['unit_price'].mean()`). -/
def group_avg_price (l : List R2) (r : Row) : Rat :=
  listMean ((groupRows l r).map (fun x => x.r1.base.unit_price))

/-- `price_index_vs_comp`:
`np.where(group_avg_price > 0, unit_price / group_avg_price, 1.0)`. -/
def price_index_vs_comp (l : List R2) (r : Row) : Rat :=
  if 0 < group_avg_price l r then r.unit_price / group_avg_price l r else 1

/-- Output row of pass 3 (`calculate_price_index`). -/
structure R3 where
  r2 : R2
  is_bidco : Bool
  group_avg_price : Rat
  price_index_vs_comp : Rat
deriving DecidableEq

/-- The per-row enrichment of `calculate_price_index`. -/
def enrich3 (l : List R2) (x : R2) : R3 :=
  ⟨x, is_bidco x.r1.base, group_avg_price l x.r1.base, price_index_vs_comp l x.r1.base⟩

/-- Pass 3, `calculate_price_index`. -/
def calculate_price_index (l : List R2) : List R3 :=
  l.map (enrich3 l)

/-- `total_stores`: `df['store_name'].nunique()`. -/
def total_stores (l : List R3) : Nat :=
  (l.map (fun x => x.r2.r1.base.store_name)).dedup.length

/-- Store names of the promo rows of one item. -/
def promoStoreNames (l : List R3) (item : String) : List String :=
  (l.filter (fun x => x.r2.r1.base.item_code == item && x.r2.r1.is_promo)).map
    (fun x => x.r2.r1.base.store_name)

/-- `promo_store_count`: per item, distinct stores among its promo rows
(`df[df.is_promo].groupby('item_code')['store_name'].nunique()`,
left-merged with `fillna(0)`). -/
def promo_store_count (l : List R3) (item : String) : Nat :=
  (promoStoreNames l item).dedup.length

/-- `promo_coverage_pct = promo_store_count / total_stores * 100`. -/
def promo_coverage_pct (l : List R3) (item : String) : Rat :=
  ((promo_store_count l item : Rat) / (total_stores l : Rat)) * 100

/-- Output row of pass 4 (`calculate_promo_coverage`): the fully
enriched record. -/
structure R4 where
  r3 : R3
  promo_store_count : Nat
  promo_coverage_pct : Rat
deriving DecidableEq

/-- The per-row enrichment of `calculate_promo_coverage`. -/
def enrich4 (l : List R3) (x : R3) : R4 :=
  ⟨x, promo_store_count l x.r2.r1.base.item_code, promo_coverage_pct l x.r2.r1.base.item_code⟩

/-- Pass 4, `calculate_promo_coverage`. -/
def calculate_promo_coverage (l : List R3) : List R4 :=
  l.map (enrich4 l)

/-- The dataset after pass 1. -/
def stage1 (ds : List Row) : List R1 := detect_promos ds

/-- The dataset after pass 2. -/
def stage2 (ds : List Row) : List R2 := calculate_uplift (stage1 ds)

/-- The dataset after pass 3. -/
def stage3 (ds : List Row) : List R3 := calculate_price_index (stage2 ds)

/-- The transformation `main`: the four passes in order. -/
def transform (ds : List Row) : List R4 :=
  calculate_promo_coverage (stage3 ds)

/-- Projection from a pass-2 row to its base transaction row. -/
def R2.base (x : R2) : Row := x.r1.base

/-- Projection from a pass-3 row to its base transaction row. -/
def R3.base (x : R3) : Row := x.r2.r1.base

/-- Projection from an enriched row to its base transaction row. -/
def R4.base (x : R4) : Row := x.r3.r2.r1.base

/-- The `discount_pct` column of an enriched row. -/
def R4.discount_pct (x : R4) : Rat := x.r3.r2.r1.discount_pct

/-- The `promo_days_count` column of an enriched row. -/
def R4.promo_days_count (x : R4) : Nat := x.r3.r2.r1.promo_days_count

/-- The `is_promo` column of an enriched row. -/
def R4.is_promo (x : R4) : Bool := x.r3.r2.r1.is_promo

/-- The `baseline_units` column of an enriched row. -/
def R4.baseline_units (x : R4) : Rat := x.r3.r2.baseline_units

/-- The `promo_avg_units` column of an enriched row. -/
def R4.promo_avg_units (x : R4) : Rat := x.r3.r2.promo_avg_units

/-- The `promo_uplift_pct` column of an enriched row. -/
def R4.promo_uplift_pct (x : R4) : Rat := x.r3.r2.promo_uplift_pct

/-- The `is_bidco` column of an enriched row. -/
def R4.is_bidco (x : R4) : Bool := x.r3.is_bidco

/-- The `group_avg_price` column of an enriched row. -/
def R4.group_avg_price (x : R4) : Rat := x.r3.group_avg_price

/-- The `price_index_vs_comp` column of an enriched row. -/
def R4.price_index_vs_comp (x : R4) : Rat := x.r3.price_index_vs_comp

/-- The composite per-row enrichment performed by the full pipeline. -/
def enrichRow (ds : List Row) (r : Row) : R4 :=
  enrich4 (stage3 ds) (enrich3 (stage2 ds) (enrich2 (stage1 ds) (enrich1 ds r)))

example :
    transform [⟨"A", "I1", "S", "X", "U", 1, 1, 5, 10, 5, "high"⟩]
      = [⟨⟨⟨⟨⟨"A", "I1", "S", "X", "U", 1, 1, 5, 10, 5, "high"⟩, 1/2, 1, false⟩, 1, 0, 0⟩,
          false, 5, 1⟩, 0, 0⟩] := by
  decide

/-- The non-promo rows of one item, stated over the input dataset. -/
def nonPromoRowsD (ds : List Row) (item : String) : List Row :=
  ds.filter (fun x => x.item_code == item && !is_promo ds x)

/-- The promo rows of one item, stated over the input dataset. -/
def promoRowsD (ds : List Row) (item : String) : List Row :=
  ds.filter (fun x => x.item_code == item && is_promo ds x)

/-- The rows of `r`'s (sub-department, section, store) cohort, stated over
the input dataset. -/
def cohortRows (ds : List Row) (r : Row) : List Row :=
  ds.filter (fun x => sameGroup r x)

/-- The set of distinct sale dates on which the item has at least one
promo-candidate row. -/
def candidateDateSet (ds : List Row) (item : String) : Finset Nat :=
  ((candidateRows ds item).map Row.date_of_sale).toFinset

lemma filter_map_map {α β γ : Type} (f : α → β) (p : β → Bool) (g : β → γ) :
    ∀ l : List α, ((l.map f).filter p).map g
      = (l.filter (fun a => p (f a))).map (fun a => g (f a))
  | [] => rfl
  | a :: l => by
    by_cases h : p (f a) <;>
      simp [List.filter_cons, h, filter_map_map f p g l]

lemma stage2_eq (ds : List Row) :
    stage2 ds = ds.map (fun r => enrich2 (stage1 ds) (enrich1 ds r)) := by
  simp [stage2, stage1, calculate_uplift, detect_promos, List.map_map]

lemma stage3_eq (ds : List Row) :
    stage3 ds
      = ds.map (fun r => enrich3 (stage2 ds) (enrich2 (stage1 ds) (enrich1 ds r))) := by
  rw [stage3, stage2_eq, calculate_price_index, List.map_map]
  rw [← stage2_eq]
  rfl

lemma transform_eq_map (ds : List Row) :
    transform ds = ds.map (enrichRow ds) := by
  rw [transform, stage3_eq, calculate_promo_coverage, List.map_map]
  rw [← stage3_eq]
  rfl

lemma mem_transform_iff (ds : List Row) (er : R4) :
    er ∈ transform ds ↔ ∃ r ∈ ds, enrichRow ds r = er := by
  rw [transform_eq_map, List.mem_map]

lemma nonPromoQuantities_stage1 (ds : List Row) (item : String) :
    nonPromoQuantities (stage1 ds) item = (nonPromoRowsD ds item).map Row.quantity := by
  rw [nonPromoQuantities, stage1, detect_promos, filter_map_map]
  rfl

lemma promoQuantities_stage1 (ds : List Row) (item : String) :
    promoQuantities (stage1 ds) item = (promoRowsD ds item).map Row.quantity := by
  rw [promoQuantities, stage1, detect_promos, filter_map_map]
  rfl

lemma groupPrices_stage2 (ds : List Row) (r : Row) :
    (groupRows (stage2 ds) r).map (fun x => x.r1.base.unit_price)
      = (cohortRows ds r).map Row.unit_price := by
  rw [groupRows, stage2_eq, filter_map_map]
  rfl

lemma group_avg_price_stage2 (ds : List Row) (r : Row) :
    group_avg_price (stage2 ds) r = listMean ((cohortRows ds r).map Row.unit_price) := by
  rw [group_avg_price, groupPrices_stage2]

lemma storeNames_stage3 (ds : List Row) :
    (stage3 ds).map (fun x => x.r2.r1.base.store_name) = ds.map Row.store_name := by
  rw [stage3_eq, List.map_map]
  rfl

lemma total_stores_stage3 (ds : List Row) :
    total_stores (stage3 ds) = (ds.map Row.store_name).dedup.length := by
  rw [total_stores, storeNames_stage3]

lemma promoStoreNames_stage3 (ds : List Row) (item : String) :
    promoStoreNames (stage3 ds) item = (promoRowsD ds item).map Row.store_name := by
  rw [promoStoreNames, stage3_eq, filter_map_map]
  rfl

lemma baseline_units_stage1 (ds : List Row) (r : Row) :
    baseline_units (stage1 ds) (enrich1 ds r)
      = if nonPromoRowsD ds r.item_code = [] then r.quantity
        else listMean ((nonPromoRowsD ds r.item_code).map Row.quantity) := by
  rw [baseline_units]
  have hb : (enrich1 ds r).base = r := rfl
  rw [hb, nonPromoQuantities_stage1]
  by_cases h : nonPromoRowsD ds r.item_code = [] <;> simp [h]

lemma promo_avg_units_stage1 (ds : List Row) (item : String) :
    promo_avg_units (stage1 ds) item
      = if promoRowsD ds item = [] then 0
        else listMean ((promoRowsD ds item).map Row.quantity) := by
  rw [promo_avg_units, promoQuantities_stage1]
  by_cases h : promoRowsD ds item = [] <;> simp [h]

lemma enrichRow_base (ds : List Row) (r : Row) : R4.base (enrichRow ds r) = r := rfl

lemma enrichRow_discount (ds : List Row) (r : Row) :
    R4.discount_pct (enrichRow ds r) = discount_pct r := rfl

lemma enrichRow_days (ds : List Row) (r : Row) :
    R4.promo_days_count (enrichRow ds r) = promo_days_count ds r.item_code := rfl

lemma enrichRow_isPromo (ds : List Row) (r : Row) :
    R4.is_promo (enrichRow ds r) = is_promo ds r := rfl

lemma enrichRow_baseline (ds : List Row) (r : Row) :
    R4.baseline_units (enrichRow ds r) = baseline_units (stage1 ds) (enrich1 ds r) := rfl

lemma enrichRow_promoAvg (ds : List Row) (r : Row) :
    R4.promo_avg_units (enrichRow ds r) = promo_avg_units (stage1 ds) r.item_code := rfl

lemma enrichRow_uplift (ds : List Row) (r : Row) :
    R4.promo_uplift_pct (enrichRow ds r) = promo_uplift_pct (stage1 ds) (enrich1 ds r) := rfl

lemma enrichRow_groupAvg (ds : List Row) (r : Row) :
    R4.group_avg_price (enrichRow ds r) = group_avg_price (stage2 ds) r := rfl

lemma enrichRow_index (ds : List Row) (r : Row) :
    R4.price_index_vs_comp (enrichRow ds r) = price_index_vs_comp (stage2 ds) r := rfl

lemma enrichRow_storeCount (ds : List Row) (r : Row) :
    (enrichRow ds r).promo_store_count = promo_store_count (stage3 ds) r.item_code := rfl

lemma enrichRow_coverage (ds : List Row) (r : Row) :
    (enrichRow ds r).promo_coverage_pct = promo_coverage_pct (stage3 ds) r.item_code := rfl

/-- Sample cleaned row: SKU1 at 15% discount, day 1, store A. -/
def wRow1 : Row :=
  ⟨"StoreA", "SKU1", "Oils", "Cooking", "Bidco Africa Ltd", 1, 10, 850, 100, 85, "high"⟩

/-- Sample cleaned row: SKU1 at 15% discount, day 2, store A. -/
def wRow2 : Row :=
  ⟨"StoreA", "SKU1", "Oils", "Cooking", "Bidco Africa Ltd", 2, 12, 1020, 100, 85, "high"⟩

/-- Sample cleaned row: SKU2 at list price, day 1, store A. -/
def wRow3 : Row :=
  ⟨"StoreA", "SKU2", "Oils", "Cooking", "Unilever", 1, 5, 500, 100, 100, "high"⟩

/-- Sample cleaned dataset. -/
def wDs : List Row := [wRow1, wRow2, wRow3]

/-- The enriched row the pipeline produces for `wRow1`. -/
def wEr1 : R4 := ⟨⟨⟨⟨wRow1, 3/20, 2, true⟩, 10, 11, 10⟩, true, 90, 17/18⟩, 1, 100⟩

example : transform wDs = [wEr1,
    ⟨⟨⟨⟨wRow2, 3/20, 2, true⟩, 12, 11, -25/3⟩, true, 90, 17/18⟩, 1, 100⟩,
    ⟨⟨⟨⟨wRow3, 0, 0, false⟩, 5, 0, 0⟩, false, 90, 10/9⟩, 0, 0⟩] := by
  decide

/-- C1: `is_promo` is true iff the row's own discount meets the 10%
threshold and the item's `promo_days_count` is at least 2. -/
theorem is_promo_iff_discount_and_days (ds : List Row) (er : R4)
    (h : er ∈ transform ds) :
    PROMO_MIN_DISCOUNT_PCT = 1 / 10 ∧ PROMO_MIN_DAYS = 2 ∧
    (er.is_promo = true ↔
      PROMO_MIN_DISCOUNT_PCT ≤ er.discount_pct ∧ PROMO_MIN_DAYS ≤ er.promo_days_count) := by
  obtain ⟨r, hr, rfl⟩ := (mem_transform_iff ds er).1 h
  refine ⟨rfl, rfl, ?_⟩
  rw [enrichRow_isPromo, enrichRow_discount, enrichRow_days, is_promo, is_promo_candidate]
  simp [Bool.and_eq_true, decide_eq_true_iff]

/-- Witness for C1 at a concrete dataset. -/
theorem is_promo_iff_discount_and_days_witness :
    wEr1 ∈ transform wDs ∧
    (PROMO_MIN_DISCOUNT_PCT = 1 / 10 ∧ PROMO_MIN_DAYS = 2 ∧
      (wEr1.is_promo = true ↔
        PROMO_MIN_DISCOUNT_PCT ≤ wEr1.discount_pct ∧
          PROMO_MIN_DAYS ≤ wEr1.promo_days_count)) :=
  ⟨by decide, is_promo_iff_discount_and_days wDs wEr1 (by decide)⟩

/-- C2: `promo_days_count` is the number of distinct sale dates, across
all stores of the whole dataset, on which the item has at least one
promo-candidate row; an item with no candidate rows gets 0. -/
theorem promo_days_count_distinct_candidate_dates (ds : List Row) (er : R4)
    (h : er ∈ transform ds) :
    er.promo_days_count = (candidateDateSet ds er.base.item_code).card ∧
    (∀ d : Nat, d ∈ candidateDateSet ds er.base.item_code ↔
      ∃ x ∈ ds, x.item_code = er.base.item_code ∧
        PROMO_MIN_DISCOUNT_PCT ≤ discount_pct x ∧ x.date_of_sale = d) ∧
    ((¬ ∃ x ∈ ds, x.item_code = er.base.item_code ∧
        PROMO_MIN_DISCOUNT_PCT ≤ discount_pct x) → er.promo_days_count = 0) := by
  obtain ⟨r, hr, rfl⟩ := (mem_transform_iff ds er).1 h
  rw [enrichRow_days, enrichRow_base]
  refine ⟨?_, ?_, ?_⟩
  · rw [promo_days_count, candidateDateSet, List.card_toFinset]
  · intro d
    simp only [candidateDateSet, candidateRows, List.mem_toFinset, List.mem_map,
      List.mem_filter, Bool.and_eq_true, beq_iff_eq, is_promo_candidate,
      decide_eq_true_iff]
    constructor
    · rintro ⟨x, ⟨hx, hitem, hcand⟩, hdate⟩
      exact ⟨x, hx, hitem, hcand, hdate⟩
    · rintro ⟨x, hx, hitem, hcand, hdate⟩
      exact ⟨x, ⟨hx, hitem, hcand⟩, hdate⟩
  · intro hnone
    rw [promo_days_count]
    have hempty : candidateRows ds r.item_code = [] := by
      rw [candidateRows, List.filter_eq_nil_iff]
      intro x hx
      simp only [Bool.and_eq_true, beq_iff_eq, is_promo_candidate, decide_eq_true_iff,
        not_and]
      intro hitem hcand
      exact hnone ⟨x, hx, hitem, hcand⟩
    rw [hempty]
    rfl

/-- Witness for C2 at a concrete dataset. -/
theorem promo_days_count_distinct_candidate_dates_witness :
    wEr1 ∈ transform wDs ∧
    (wEr1.promo_days_count = (candidateDateSet wDs wEr1.base.item_code).card ∧
    (∀ d : Nat, d ∈ candidateDateSet wDs wEr1.base.item_code ↔
      ∃ x ∈ wDs, x.item_code = wEr1.base.item_code ∧
        PROMO_MIN_DISCOUNT_PCT ≤ discount_pct x ∧ x.date_of_sale = d) ∧
    ((¬ ∃ x ∈ wDs, x.item_code = wEr1.base.item_code ∧
        PROMO_MIN_DISCOUNT_PCT ≤ discount_pct x) → wEr1.promo_days_count = 0)) :=
  ⟨by decide, promo_days_count_distinct_candidate_dates wDs wEr1 (by decide)⟩

/-- C3: `baseline_units` is the mean quantity over the item's non-promo
rows (the row's own quantity when the item has none),
`promo_avg_units` is the mean quantity over the item's promo rows (0 when
none), and `promo_uplift_pct` is the relative uplift exactly on promo
rows with positive baseline, 0 otherwise. -/
theorem promo_uplift_spec (ds : List Row) (er : R4) (h : er ∈ transform ds) :
    (er.baseline_units =
      if nonPromoRowsD ds er.base.item_code = [] then er.base.quantity
      else listMean ((nonPromoRowsD ds er.base.item_code).map Row.quantity)) ∧
    (er.promo_avg_units =
      if promoRowsD ds er.base.item_code = [] then 0
      else listMean ((promoRowsD ds er.base.item_code).map Row.quantity)) ∧
    (er.is_promo = true ∧ 0 < er.baseline_units →
      er.promo_uplift_pct =
        ((er.promo_avg_units - er.baseline_units) / er.baseline_units) * 100) ∧
    (¬ (er.is_promo = true ∧ 0 < er.baseline_units) → er.promo_uplift_pct = 0) := by
  obtain ⟨r, hr, rfl⟩ := (mem_transform_iff ds er).1 h
  rw [enrichRow_base, enrichRow_baseline, enrichRow_promoAvg, enrichRow_uplift,
    enrichRow_isPromo]
  refine ⟨baseline_units_stage1 ds r, promo_avg_units_stage1 ds r.item_code, ?_, ?_⟩
  · rintro ⟨hp, hb⟩
    rw [promo_uplift_pct, if_pos (⟨hb, hp⟩ :
      0 < baseline_units (stage1 ds) (enrich1 ds r) ∧ (enrich1 ds r).is_promo = true)]
    rfl
  · intro hnot
    rw [promo_uplift_pct, if_neg]
    exact fun hc => hnot ⟨hc.2, hc.1⟩

/-- Witness for C3 at a concrete dataset. -/
theorem promo_uplift_spec_witness :
    wEr1 ∈ transform wDs ∧
    ((wEr1.baseline_units =
      if nonPromoRowsD wDs wEr1.base.item_code = [] then wEr1.base.quantity
      else listMean ((nonPromoRowsD wDs wEr1.base.item_code).map Row.quantity)) ∧
    (wEr1.promo_avg_units =
      if promoRowsD wDs wEr1.base.item_code = [] then 0
      else listMean ((promoRowsD wDs wEr1.base.item_code).map Row.quantity)) ∧
    (wEr1.is_promo = true ∧ 0 < wEr1.baseline_units →
      wEr1.promo_uplift_pct =
        ((wEr1.promo_avg_units - wEr1.baseline_units) / wEr1.baseline_units) * 100) ∧
    (¬ (wEr1.is_promo = true ∧ 0 < wEr1.baseline_units) →
      wEr1.promo_uplift_pct = 0)) :=
  ⟨by decide, promo_uplift_spec wDs wEr1 (by decide)⟩

/-- Counterexample row: negative unit price (negative total sales), item CX1. -/
def cexRow1 : Row := ⟨"A", "CX1", "S", "X", "U", 1, 1, -5, 0, -5, "low"⟩

/-- Counterexample row: negative unit price (negative total sales), item CX2. -/
def cexRow2 : Row := ⟨"A", "CX2", "S", "X", "U", 1, 1, -3, 0, -3, "low"⟩

/-- Counterexample dataset: one cohort with group average −4. -/
def cexDs : List Row := [cexRow1, cexRow2]

/-- C4 counterexample: the code defaults `price_index_vs_comp` to 1.0
whenever the group average is not strictly positive, not only when it is
0.  On a cohort with negative average unit price (−4 here, from negative
total sales), the index is 1.0 although the group average is nonzero and
`unit_price / group_avg_price` is not 1. -/
theorem price_index_default_cex :
    ¬ (∀ er ∈ transform cexDs,
        (er.group_avg_price = 0 → er.price_index_vs_comp = 1) ∧
        (er.group_avg_price ≠ 0 →
          er.price_index_vs_comp = er.base.unit_price / er.group_avg_price)) := by
  decide

/-- C4 amended: `group_avg_price` is the mean unit price over the
(sub-department, section, store) cohort — every cohort row enters it,
Bidco rows included — and `price_index_vs_comp = unit_price /
group_avg_price` when the group average is strictly positive, defaulting
to 1.0 when it is not (in particular when it is 0). -/
theorem price_index_spec_amended (ds : List Row) (er : R4) (h : er ∈ transform ds) :
    er.group_avg_price = listMean ((cohortRows ds er.base).map Row.unit_price) ∧
    (∀ x ∈ ds, sameGroup er.base x = true → x ∈ cohortRows ds er.base) ∧
    (0 < er.group_avg_price →
      er.price_index_vs_comp = er.base.unit_price / er.group_avg_price) ∧
    (¬ 0 < er.group_avg_price → er.price_index_vs_comp = 1) := by
  obtain ⟨r, hr, rfl⟩ := (mem_transform_iff ds er).1 h
  rw [enrichRow_base, enrichRow_groupAvg, enrichRow_index]
  refine ⟨group_avg_price_stage2 ds r, ?_, ?_, ?_⟩
  · intro x hx hg
    rw [cohortRows, List.mem_filter]
    exact ⟨hx, hg⟩
  · intro hpos
    rw [price_index_vs_comp, if_pos hpos]
  · intro hnot
    rw [price_index_vs_comp, if_neg hnot]

/-- Witness for the amended C4 at a concrete dataset. -/
theorem price_index_spec_amended_witness :
    wEr1 ∈ transform wDs ∧
    (wEr1.group_avg_price = listMean ((cohortRows wDs wEr1.base).map Row.unit_price) ∧
    (∀ x ∈ wDs, sameGroup wEr1.base x = true → x ∈ cohortRows wDs wEr1.base) ∧
    (0 < wEr1.group_avg_price →
      wEr1.price_index_vs_comp = wEr1.base.unit_price / wEr1.group_avg_price) ∧
    (¬ 0 < wEr1.group_avg_price → wEr1.price_index_vs_comp = 1)) :=
  ⟨by decide, price_index_spec_amended wDs wEr1 (by decide)⟩

/-- C5: every zero-division guard of the four passes resolves to the
specified fallback — `discount_pct = 0` at nonpositive RRP, `promo_uplift_pct = 0`
outside promo rows with positive baseline, `price_index_vs_comp = 1` at
nonpositive group average, the self-referential baseline and the 0
promo average at empty cohorts — and the coverage denominator
(`total_stores`) is strictly positive for every dataset that has a row,
so every enrichment field is a well-defined rational. -/
theorem enrichment_fallbacks_defined (ds : List Row) (er : R4) (h : er ∈ transform ds) :
    (er.base.rrp ≤ 0 → er.discount_pct = 0) ∧
    (¬ (er.is_promo = true ∧ 0 < er.baseline_units) → er.promo_uplift_pct = 0) ∧
    (¬ 0 < er.group_avg_price → er.price_index_vs_comp = 1) ∧
    (nonPromoRowsD ds er.base.item_code = [] → er.baseline_units = er.base.quantity) ∧
    (promoRowsD ds er.base.item_code = [] → er.promo_avg_units = 0) ∧
    0 < total_stores (stage3 ds) := by
  obtain ⟨r, hr, rfl⟩ := (mem_transform_iff ds er).1 h
  rw [enrichRow_base, enrichRow_discount, enrichRow_isPromo, enrichRow_baseline,
    enrichRow_uplift, enrichRow_groupAvg, enrichRow_index, enrichRow_promoAvg]
  refine ⟨?_, ?_, ?_, ?_, ?_, ?_⟩
  · intro hle
    rw [discount_pct, if_neg (not_lt.2 hle)]
  · intro hnot
    rw [promo_uplift_pct, if_neg]
    exact fun hc => hnot ⟨hc.2, hc.1⟩
  · intro hnot
    rw [price_index_vs_comp, if_neg hnot]
  · intro hempty
    rw [baseline_units_stage1, if_pos hempty]
  · intro hempty
    rw [promo_avg_units_stage1, if_pos hempty]
  · rw [total_stores_stage3]
    have hmem : r.store_name ∈ ds.map Row.store_name :=
      List.mem_map.2 ⟨r, hr, rfl⟩
    exact List.length_pos.2 fun hnil => by
      rw [← List.mem_dedup] at hmem
      rw [hnil] at hmem
      exact (List.not_mem_nil _) hmem

/-- Witness for C5 at a concrete dataset. -/
theorem enrichment_fallbacks_defined_witness :
    wEr1 ∈ transform wDs ∧
    ((wEr1.base.rrp ≤ 0 → wEr1.discount_pct = 0) ∧
    (¬ (wEr1.is_promo = true ∧ 0 < wEr1.baseline_units) → wEr1.promo_uplift_pct = 0) ∧
    (¬ 0 < wEr1.group_avg_price → wEr1.price_index_vs_comp = 1) ∧
    (nonPromoRowsD wDs wEr1.base.item_code = [] →
      wEr1.baseline_units = wEr1.base.quantity) ∧
    (promoRowsD wDs wEr1.base.item_code = [] → wEr1.promo_avg_units = 0) ∧
    0 < total_stores (stage3 wDs)) :=
  ⟨by decide, enrichment_fallbacks_defined wDs wEr1 (by decide)⟩

/-- C6: for every row with a strictly positive group average,
`price_index_vs_comp * group_avg_price` recovers the row's unit price
exactly. -/
theorem price_index_roundtrip (ds : List Row) (er : R4) (h : er ∈ transform ds)
    (hpos : 0 < er.group_avg_price) :
    er.price_index_vs_comp * er.group_avg_price = er.base.unit_price := by
  obtain ⟨r, hr, rfl⟩ := (mem_transform_iff ds er).1 h
  rw [enrichRow_groupAvg] at hpos
  rw [enrichRow_base, enrichRow_groupAvg, enrichRow_index, price_index_vs_comp,
    if_pos hpos]
  exact div_mul_cancel₀ r.unit_price (ne_of_gt hpos)

/-- Witness for C6 at a concrete dataset. -/
theorem price_index_roundtrip_witness :
    wEr1 ∈ transform wDs ∧ 0 < wEr1.group_avg_price ∧
    wEr1.price_index_vs_comp * wEr1.group_avg_price = wEr1.base.unit_price :=
  ⟨by decide, by decide, price_index_roundtrip wDs wEr1 (by decide) (by decide)⟩

/-- C7: `discount_pct = (rrp − unit_price) / rrp` when `rrp > 0`, else 0;
a row with `rrp = 0` has `discount_pct = 0`, is never a promo candidate,
and hence is never promo. -/
theorem discount_pct_spec (ds : List Row) (er : R4) (h : er ∈ transform ds) :
    (0 < er.base.rrp →
      er.discount_pct = (er.base.rrp - er.base.unit_price) / er.base.rrp) ∧
    (¬ 0 < er.base.rrp → er.discount_pct = 0) ∧
    (er.base.rrp = 0 →
      er.discount_pct = 0 ∧ is_promo_candidate er.base = false ∧ er.is_promo = false) := by
  obtain ⟨r, hr, rfl⟩ := (mem_transform_iff ds er).1 h
  rw [enrichRow_base, enrichRow_discount, enrichRow_isPromo]
  have hzero : ¬ 0 < r.rrp → discount_pct r = 0 := fun hnot => by
    rw [discount_pct, if_neg hnot]
  refine ⟨?_, hzero, ?_⟩
  · intro hpos
    rw [discount_pct, if_pos hpos]
  · intro hrrp
    have hd : discount_pct r = 0 := hzero (by rw [hrrp]; exact lt_irrefl 0)
    have hcand : is_promo_candidate r = false := by
      rw [is_promo_candidate, hd]
      simp [PROMO_MIN_DISCOUNT_PCT]
    refine ⟨hd, hcand, ?_⟩
    rw [is_promo, hcand]
    rfl

/-- Witness for C7 at a concrete dataset. -/
theorem discount_pct_spec_witness :
    wEr1 ∈ transform wDs ∧
    ((0 < wEr1.base.rrp →
      wEr1.discount_pct = (wEr1.base.rrp - wEr1.base.unit_price) / wEr1.base.rrp) ∧
    (¬ 0 < wEr1.base.rrp → wEr1.discount_pct = 0) ∧
    (wEr1.base.rrp = 0 →
      wEr1.discount_pct = 0 ∧ is_promo_candidate wEr1.base = false ∧
        wEr1.is_promo = false)) :=
  ⟨by decide, discount_pct_spec wDs wEr1 (by decide)⟩

lemma dedup_length_le_of_subset {α : Type} [DecidableEq α] {l1 l2 : List α}
    (h : ∀ a ∈ l1, a ∈ l2) : l1.dedup.length ≤ l2.dedup.length := by
  rw [← List.card_toFinset, ← List.card_toFinset]
  refine Finset.card_le_card fun a ha => ?_
  rw [List.mem_toFinset] at *
  exact h a ha

lemma promo_store_count_le_total (ds : List Row) (item : String) :
    promo_store_count (stage3 ds) item ≤ total_stores (stage3 ds) := by
  rw [promo_store_count, promoStoreNames_stage3, total_stores_stage3]
  refine dedup_length_le_of_subset fun a ha => ?_
  obtain ⟨x, hx, rfl⟩ := List.mem_map.1 ha
  exact List.mem_map.2 ⟨x, List.mem_of_mem_filter hx, rfl⟩

/-- C8: `promo_coverage_pct` lies in [0, 100], equals
`promo_store_count / total_stores × 100` with `total_stores` the distinct
stores of the whole dataset and `promo_store_count` the distinct stores
among the item's promo rows, and is 0 (with store count 0) for an item
with no promo rows. -/
theorem promo_coverage_bounds (ds : List Row) (er : R4) (h : er ∈ transform ds) :
    (0 ≤ er.promo_coverage_pct ∧ er.promo_coverage_pct ≤ 100) ∧
    er.promo_coverage_pct =
      ((er.promo_store_count : Rat) / (((ds.map Row.store_name).dedup.length : Nat) : Rat)) * 100 ∧
    er.promo_store_count
      = ((promoRowsD ds er.base.item_code).map Row.store_name).dedup.length ∧
    (promoRowsD ds er.base.item_code = [] →
      er.promo_store_count = 0 ∧ er.promo_coverage_pct = 0) := by
  obtain ⟨r, hr, rfl⟩ := (mem_transform_iff ds er).1 h
  rw [enrichRow_base, enrichRow_coverage, enrichRow_storeCount]
  have hcount : promo_store_count (stage3 ds) r.item_code
      = ((promoRowsD ds r.item_code).map Row.store_name).dedup.length := by
    rw [promo_store_count, promoStoreNames_stage3]
  have htot : (0 : Nat) < total_stores (stage3 ds) := by
    rw [total_stores_stage3]
    have hmem : r.store_name ∈ (ds.map Row.store_name).dedup :=
      List.mem_dedup.2 (List.mem_map.2 ⟨r, hr, rfl⟩)
    exact List.length_pos.2 fun hnil => by
      rw [hnil] at hmem
      exact (List.not_mem_nil _) hmem
  have htotQ : (0 : Rat) < ((total_stores (stage3 ds) : Nat) : Rat) := by
    exact_mod_cast htot
  have hform : promo_coverage_pct (stage3 ds) r.item_code
      = ((promo_store_count (stage3 ds) r.item_code : Rat)
          / ((total_stores (stage3 ds) : Nat) : Rat)) * 100 := rfl
  refine ⟨⟨?_, ?_⟩, ?_, hcount, ?_⟩
  · rw [hform]
    have h0 : (0 : Rat) ≤ (promo_store_count (stage3 ds) r.item_code : Rat) := by
      exact_mod_cast Nat.zero_le _
    have hdiv : (0 : Rat) ≤ (promo_store_count (stage3 ds) r.item_code : Rat)
        / ((total_stores (stage3 ds) : Nat) : Rat) := div_nonneg h0 (le_of_lt htotQ)
    nlinarith
  · rw [hform]
    have hle : (promo_store_count (stage3 ds) r.item_code : Rat)
        ≤ ((total_stores (stage3 ds) : Nat) : Rat) := by
      exact_mod_cast promo_store_count_le_total ds r.item_code
    have hdiv : (promo_store_count (stage3 ds) r.item_code : Rat)
        / ((total_stores (stage3 ds) : Nat) : Rat) ≤ 1 :=
      (div_le_one htotQ).2 hle
    nlinarith
  · rw [hform, total_stores_stage3]
  · intro hempty
    have hc0 : promo_store_count (stage3 ds) r.item_code = 0 := by
      rw [hcount, hempty]
      rfl
    refine ⟨hc0, ?_⟩
    rw [hform, hc0]
    norm_num

/-- Witness for C8 at a concrete dataset. -/
theorem promo_coverage_bounds_witness :
    wEr1 ∈ transform wDs ∧
    ((0 ≤ wEr1.promo_coverage_pct ∧ wEr1.promo_coverage_pct ≤ 100) ∧
    wEr1.promo_coverage_pct =
      ((wEr1.promo_store_count : Rat)
        / (((wDs.map Row.store_name).dedup.length : Nat) : Rat)) * 100 ∧
    wEr1.promo_store_count
      = ((promoRowsD wDs wEr1.base.item_code).map Row.store_name).dedup.length ∧
    (promoRowsD wDs wEr1.base.item_code = [] →
      wEr1.promo_store_count = 0 ∧ wEr1.promo_coverage_pct = 0)) :=
  ⟨by decide, promo_coverage_bounds wDs wEr1 (by decide)⟩

/-- C9: every pass is a per-row extension — projecting each pass's output
back to its input recovers the input list exactly (same rows, same
order, none dropped), so quantity, total sales, RRP and the data-quality
flag of every row are unchanged by each pass and by the composed
pipeline. -/
theorem passes_preserve_rows (ds : List Row) (l1 : List R1) (l2 : List R2)
    (l3 : List R3) :
    (detect_promos ds).map R1.base = ds ∧
    (calculate_uplift l1).map R2.r1 = l1 ∧
    (calculate_price_index l2).map R3.r2 = l2 ∧
    (calculate_promo_coverage l3).map R4.r3 = l3 ∧
    (transform ds).map R4.base = ds := by
  refine ⟨?_, ?_, ?_, ?_, ?_⟩
  · rw [detect_promos, List.map_map]
    have hc : (R1.base ∘ enrich1 ds) = fun r => r := rfl
    rw [hc, List.map_id']
  · rw [calculate_uplift, List.map_map]
    have hc : (R2.r1 ∘ enrich2 l1) = fun x => x := rfl
    rw [hc, List.map_id']
  · rw [calculate_price_index, List.map_map]
    have hc : (R3.r2 ∘ enrich3 l2) = fun x => x := rfl
    rw [hc, List.map_id']
  · rw [calculate_promo_coverage, List.map_map]
    have hc : (R4.r3 ∘ enrich4 l3) = fun x => x := rfl
    rw [hc, List.map_id']
  · rw [transform_eq_map, List.map_map]
    have hc : (R4.base ∘ enrichRow ds) = fun r => r := rfl
    rw [hc, List.map_id']

/-- Cleaned row with nonpositive quantity but positive RRP: the cleaning
stage prices it at 0. -/
def zRow : Row := ⟨"A", "Z", "S", "X", "U", 7, -2, 50, 20, 0, "low"⟩

/-- Dataset holding `zRow`. -/
def zDs : List Row := [zRow]

/-- C10: a cleaned row with `quantity ≤ 0` and `rrp > 0` gets
`unit_price = 0` from the cleaning stage, hence `discount_pct = 1` from
the transform, is a promo candidate, and its sale date counts toward the
item's `promo_days_count`. -/
theorem zero_quantity_full_discount_promo (ds : List Row) (r : Row) (h : r ∈ ds)
    (hq : r.quantity ≤ 0) (hrrp : 0 < r.rrp)
    (hup : r.unit_price = clean_unit_price r.quantity r.total_sales) :
    r.unit_price = 0 ∧ discount_pct r = 1 ∧ is_promo_candidate r = true ∧
    r.date_of_sale ∈ candidateDateSet ds r.item_code ∧
    1 ≤ promo_days_count ds r.item_code := by
  have hup0 : r.unit_price = 0 := by
    rw [hup, clean_unit_price, if_neg (not_lt.2 hq)]
  have hd : discount_pct r = 1 := by
    rw [discount_pct, if_pos hrrp, hup0, sub_zero]
    exact div_self (ne_of_gt hrrp)
  have hcand : is_promo_candidate r = true := by
    rw [is_promo_candidate, hd, decide_eq_true_eq]
    norm_num [PROMO_MIN_DISCOUNT_PCT]
  have hrow : r ∈ candidateRows ds r.item_code := by
    rw [candidateRows, List.mem_filter, Bool.and_eq_true, beq_iff_eq]
    exact ⟨h, rfl, hcand⟩
  have hdate : r.date_of_sale ∈ (candidateRows ds r.item_code).map Row.date_of_sale :=
    List.mem_map.2 ⟨r, hrow, rfl⟩
  refine ⟨hup0, hd, hcand, ?_, ?_⟩
  · rw [candidateDateSet, List.mem_toFinset]
    exact hdate
  · rw [promo_days_count]
    have hmem : r.date_of_sale
        ∈ ((candidateRows ds r.item_code).map Row.date_of_sale).dedup :=
      List.mem_dedup.2 hdate
    exact Nat.succ_le_of_lt (List.length_pos.2 fun hnil => by
      rw [hnil] at hmem
      exact (List.not_mem_nil _) hmem)

/-- Witness for C10 at a concrete dataset. -/
theorem zero_quantity_full_discount_promo_witness :
    zRow ∈ zDs ∧ zRow.quantity ≤ 0 ∧ 0 < zRow.rrp ∧
    zRow.unit_price = clean_unit_price zRow.quantity zRow.total_sales ∧
    (zRow.unit_price = 0 ∧ discount_pct zRow = 1 ∧ is_promo_candidate zRow = true ∧
      zRow.date_of_sale ∈ candidateDateSet zDs zRow.item_code ∧
      1 ≤ promo_days_count zDs zRow.item_code) :=
  ⟨by decide, by decide, by decide, by decide,
    zero_quantity_full_discount_promo zDs zRow (by decide) (by decide) (by decide)
      (by decide)⟩

end DuckLens
